import Mathlib

/-!
Shallow embedding of the bl3dump asset-path library (src/bl3dump/__init__.py)
and proofs of the specification claims about it.

Paths are modelled as lists of path segments relative to the drive root; the
fixed repository root DATA_PATH (the Python constant of the same name) is one
such list.  Python strings are modelled by Lean strings, with the character
level operations of the source (slicing, join, split) carried out on the
underlying character lists so that every definition evaluates by kernel
reduction.
-/

namespace BL3

/-- The fixed repository root, as an absolute segment list.  Mirrors the
module constant DATA_PATH (a two-level directory on a drive root). -/
def DATA_PATH : List String := ["Borderlands", "BL3 Data"]

/-- The required data version.  Mirrors the module constant DATA_VERSION. -/
def DATA_VERSION : Int := 21

/-- Split a character list at every slash, keeping empty pieces.
Auxiliary for the pathlib parsing of a path string. -/
def splitAux (acc : List Char) : List Char → List String
  | [] => [String.mk acc.reverse]
  | c :: rest =>
    if c = '/' then String.mk acc.reverse :: splitAux [] rest
    else splitAux (c :: acc) rest

/-- Parse a relative path string into its segments the way pathlib does:
split on separators, dropping empty segments and lone-dot segments
(dot-dot segments are kept; they are handled by resolve). -/
def splitPath (s : String) : List String :=
  (splitAux [] s.toList).filter (fun seg => seg ≠ "" ∧ seg ≠ ".")

/-- Embeds pathlib.Path.resolve on a symlink-free tree: fold the relative
segments over the absolute base, a dot-dot segment removing the last
component (a no-op at the drive root, as on a real filesystem). -/
def resolveSegs (acc : List String) : List String → List String
  | [] => acc
  | seg :: rest =>
    if seg = ".." then resolveSegs acc.dropLast rest
    else resolveSegs (acc ++ [seg]) rest

/-- Embeds pathlib's PurePath.suffix on a single path component: the part of
the name from its last dot, empty unless that dot is at an index i with
0 < i < len - 1. -/
def suffixOf (name : String) : String :=
  let cs := name.toList
  if cs.contains '.' then
    let i := cs.length - 1 - cs.reverse.indexOf '.'
    if 0 < i ∧ i < cs.length - 1 then String.mk (cs.drop i) else ""
  else ""

/-- A path component with its pathlib suffix removed. -/
def removeSuffix (name : String) : String :=
  String.mk (name.toList.take (name.toList.length - (suffixOf name).toList.length))

/-- Embeds pathlib's PurePath.with_suffix: replace the suffix of the final
segment of an absolute path (empty replacement removes it). -/
def with_suffix (fp : List String) (sfx : String) : List String :=
  fp.dropLast ++ [removeSuffix (fp.getLastD "") ++ sfx]

/-- Join path segments with slashes.  Embeds the source's
"/".join(parts) in the display-string computation. -/
def joinSlash : List String → String
  | [] => ""
  | [p] => p
  | p :: rest => p ++ "/" ++ joinSlash rest

/-- The two concrete asset classes of the source. -/
inductive AssetKind
  | file
  | folder
deriving DecidableEq, Repr

/-- An asset node: the class tag together with the two instance attributes
the source stores, the resolved absolute path and the display string. -/
structure AssetNode where
  kind : AssetKind
  full_path : List String
  path : String
deriving DecidableEq, Repr

/-- The leading-separator strip the base initializer applies to a string
input before joining it onto the root. -/
def stripLeadingSlash (input : String) : String :=
  if input.toList.head? = some '/' then String.mk (input.toList.drop 1) else input

/-- Embeds abstract-asset construction from a path string
(the base-class initializer): strip one leading slash, resolve against
DATA_PATH, collapse to DATA_PATH when the result is not inside it, and
compute the display string, the root showing as a single slash and every
other path as slash-joined segments between slashes. -/
def abstractInit (kind : AssetKind) (input : String) : AssetNode :=
  let fp0 := resolveSegs DATA_PATH (splitPath (stripLeadingSlash input))
  let fp := if DATA_PATH.isPrefixOf fp0 then fp0 else DATA_PATH
  let parts := fp.drop DATA_PATH.length
  ⟨kind, fp, if parts.length < 1 then "/" else "/" ++ joinSlash parts ++ "/"⟩

/-- Embeds the folder-class constructor: the base initializer unchanged. -/
def AssetFolder.ofString (input : String) : AssetNode :=
  abstractInit .folder input

/-- The tail of the file-class constructor, shared by string and resolved
construction: drop the final character of the display string (the trailing
slash), and when the resolved path's final segment carries a suffix, strip
the suffix from both the display string and the resolved path. -/
def fileInitTail (a : AssetNode) : AssetNode :=
  let p1 := String.mk a.path.toList.dropLast
  let sfx := suffixOf (a.full_path.getLastD "")
  if sfx = "" then ⟨.file, a.full_path, p1⟩
  else ⟨.file, with_suffix a.full_path "",
        String.mk (p1.toList.take (p1.toList.length - sfx.toList.length))⟩

/-- Embeds the file-class constructor: the base initializer followed by the
trailing-slash drop and the suffix strip. -/
def AssetFile.ofString (input : String) : AssetNode :=
  fileInitTail (abstractInit .file input)

/-- Embeds the source's equality method on assets: any two asset instances
(file or folder alike) compare by resolved path only; the class tag and the
display string are not consulted. -/
def assetEq (a b : AssetNode) : Bool :=
  a.full_path == b.full_path

/-- The derived binary-asset path of a file node: the resolved path with the
binary extension attached.  Mirrors the file constructor's stored attribute. -/
def _asset_path (fp : List String) : List String :=
  with_suffix fp ".uasset"

/-- The derived sidecar-cache path of a file node: the resolved path with the
structured-data extension attached. -/
def _json_path (fp : List String) : List String :=
  with_suffix fp ".json"

/-- Abstract-asset construction from an already-resolved absolute path (the
form in which traversal hands paths back to the constructors): joining the
root with an absolute path yields that path, and resolving an existing
entry's path is the identity, so only the collapse check and the display
string remain. -/
def abstractInitAbs (kind : AssetKind) (fp0 : List String) : AssetNode :=
  let fp := if DATA_PATH.isPrefixOf fp0 then fp0 else DATA_PATH
  let parts := fp.drop DATA_PATH.length
  ⟨kind, fp, if parts.length < 1 then "/" else "/" ++ joinSlash parts ++ "/"⟩

/-- Folder construction from a resolved absolute path. -/
def AssetFolder.ofAbs (fp : List String) : AssetNode :=
  abstractInitAbs .folder fp

/-- File construction from a resolved absolute path. -/
def AssetFile.ofAbs (fp : List String) : AssetNode :=
  fileInitTail (abstractInitAbs .file fp)

/-! ## Traversal: glob with stem de-duplication -/

/-- The kind a globbed directory entry can have: directory, regular file, or
anything else (matching neither the is-dir test nor the is-file test). -/
inductive EntryKind
  | dir
  | file
  | other
deriving DecidableEq, Repr

/-- One entry produced by the underlying filesystem glob: its resolved
absolute path and its kind. -/
structure Entry where
  segs : List String
  kind : EntryKind
deriving DecidableEq, Repr

/-- Embeds the loop body of the source's glob: walk the globbed entries in
order, keyed by the entry's path with its suffix removed; a key already seen
is skipped, a new key is recorded and the entry is wrapped as a folder node
if it is a directory, as a file node if it is a regular file, and dropped
(though still recorded) otherwise.  The key (first component) is kept
alongside each yielded node so that the de-duplication can be stated. -/
def globPairs (known : List (List String)) : List Entry → List (List String × AssetNode)
  | [] => []
  | e :: rest =>
    let trimmed := with_suffix e.segs ""
    if trimmed ∈ known then globPairs known rest
    else
      match e.kind with
      | .dir => (trimmed, AssetFolder.ofAbs e.segs) :: globPairs (trimmed :: known) rest
      | .file => (trimmed, AssetFile.ofAbs e.segs) :: globPairs (trimmed :: known) rest
      | .other => globPairs (trimmed :: known) rest

/-- Embeds the source's glob: the nodes yielded by the de-duplicating loop,
in enumeration order. -/
def glob (entries : List Entry) : List AssetNode :=
  (globPairs [] entries).map Prod.snd

/-! ## Python truth testing of the traversal guards -/

/-- The Python values whose truthiness the traversal guards test.  The
source writes a guard on the attribute self.exists, which is a bound method
object, not the result of calling it. -/
inductive PyObj
  | boundMethod (callResult : Bool)
  | pyBool (b : Bool)
deriving DecidableEq, Repr

/-- Embeds Python truth testing: a bound method object is always truthy, no
matter what calling it would return; a bool is its own truth value. -/
def pyTruthy : PyObj → Bool
  | .boundMethod _ => true
  | .pyBool b => b

/-- The errors a traversal call can raise: the guard's explicit
file-not-found error, or the error the directory iteration itself raises on
a missing directory. -/
inductive TraverseError
  | guardNotFound
  | iterdirNotFound
deriving DecidableEq, Repr

/-- Embeds the child-files enumeration: a guard testing the truthiness of
the bound method object (not of its call result); then iterating the
directory, which raises when it is missing, keeping regular files with the
binary-asset extension and wrapping each as a file node (the source rebuilds
each from its root-relative path, which re-resolves to the same absolute
path). -/
def child_files (dirExists : Bool) (children : List Entry) :
    Except TraverseError (List AssetNode) :=
  if pyTruthy (PyObj.boundMethod dirExists) = false then .error .guardNotFound
  else if dirExists = false then .error .iterdirNotFound
  else .ok ((children.filter (fun c =>
      c.kind = EntryKind.file ∧ suffixOf (c.segs.getLastD "") = ".uasset")).map
    (fun c => AssetFile.ofAbs c.segs))

/-- Embeds the child-folders enumeration: same guard shape, keeping
directory entries. -/
def child_folders (dirExists : Bool) (children : List Entry) :
    Except TraverseError (List AssetNode) :=
  if pyTruthy (PyObj.boundMethod dirExists) = false then .error .guardNotFound
  else if dirExists = false then .error .iterdirNotFound
  else .ok ((children.filter (fun c => c.kind = EntryKind.dir)).map
    (fun c => AssetFolder.ofAbs c.segs))

/-- Embeds the recursive file search: same guard shape; the recursive glob
underneath yields nothing on a missing directory (it swallows the scandir
error rather than raising), and the hits are the descendants with the
binary-asset extension whose stem starts with the prefix,
case-insensitively. -/
def search_child_files (dirExists : Bool) (descendants : List Entry) (pfx : String) :
    Except TraverseError (List AssetNode) :=
  if pyTruthy (PyObj.boundMethod dirExists) = false then .error .guardNotFound
  else
    let entries := if dirExists then descendants else []
    .ok ((entries.filter (fun c =>
        suffixOf (c.segs.getLastD "") = ".uasset" ∧
        (removeSuffix (c.segs.getLastD "")).toLower.startsWith pfx.toLower)).map
      (fun c => AssetFile.ofAbs c.segs))

/-! ## Hashability of asset nodes -/

/-- The possible outcomes of hashing a Python object: a value, or the
TypeError raised when the class's hash slot is None. -/
inductive PyHashResult
  | typeError
  | value (v : Int)
deriving DecidableEq, Repr

/-- The hash slot of the asset classes.  CPython sets a class's hash slot to
None when its body defines an equality method without defining a hash
method; the abstract asset base class defines equality and the module never
defines a hash method, so the slot is None for both concrete classes. -/
def assetHashSlot : Option (AssetNode → Int) := none

/-- Embeds hashing through a class's hash slot: a None slot raises
TypeError, a present slot is called. -/
def pyHash (slot : Option (AssetNode → Int)) (a : AssetNode) : PyHashResult :=
  match slot with
  | none => .typeError
  | some h => .value (h a)

/-- Hashing an asset node, through the asset classes' slot. -/
def assetHash (a : AssetNode) : PyHashResult :=
  pyHash assetHashSlot a

/-! ## The serialization cache state machine

The lazy-materialization logic of a file node is a state machine over the
part of the filesystem it consults: whether its binary asset exists and the
state of its sidecar cache file.  The external serializer is a parameter, an
arbitrary transformation of that filesystem state; its calls are counted so
that the claims about invocation counts can be stated. -/

/-- One structured record of a sidecar file.  The source reads a record as a
JSON mapping; the fields the core consults are the type discriminator
(always read by indexing, so modelled as present) and the version tag (read
only after an explicit membership test, so modelled as optional).  Other
fields are abstracted into an opaque payload so that distinct records can be
told apart. -/
structure Export where
  export_type : String
  apoc_data_ver : Option Int
  payload : Nat := 0
deriving DecidableEq, Repr

/-- The state of the sidecar cache file on disk: missing, present but not
parseable as JSON, or present with parsed content (a list of records; the
source's annotations promise a list and the callers rely on it). -/
inductive SidecarState
  | absent
  | malformed
  | content (d : List Export)
deriving DecidableEq, Repr

/-- The filesystem state a single file node consults: existence of its
binary asset and the state of its sidecar cache file. -/
structure FS where
  asset_exists : Bool
  sidecar : SidecarState
deriving DecidableEq, Repr

/-- Embeds the file-node existence test: it consults only the binary asset
path, never the sidecar. -/
def AssetFile.file_exists (fs : FS) : Bool :=
  fs.asset_exists

/-- The exceptions loading the sidecar can raise: opening a missing file, or
a JSON parse failure.  Both propagate out of the data accessor unhandled. -/
inductive LoadError
  | fileNotFound
  | parseError
deriving DecidableEq, Repr

/-- Embeds the sidecar load: open the cache file and parse it. -/
def load_data (fs : FS) : Except LoadError (List Export) :=
  match fs.sidecar with
  | .absent => .error .fileNotFound
  | .malformed => .error .parseError
  | .content d => .ok d

/-- Embeds the staleness test applied to the first record of nonempty data:
the version tag is missing, or its value is below the required constant. -/
def staleCheck : List Export → Bool
  | [] => false
  | e :: _ =>
    match e.apoc_data_ver with
    | none => true
    | some v => decide (v < DATA_VERSION)

/-- The outcome of one run of the serialization-update step: the cached-data
attribute afterwards, the exception propagated if any, the filesystem state
afterwards, and how many times the external serializer was invoked. -/
structure UpdateResult where
  cached : Option (List Export)
  exc : Option LoadError
  fs : FS
  jwp_calls : Nat
deriving Repr

/-- The tail of the update step once the sidecar is known to exist: load it;
on nonempty stale data invoke the serializer once more and reload, accepting
the second load without any further staleness check.  The cached-data
attribute keeps its previous value when the first load raises, and keeps the
first load's value when the reload raises. -/
def updateTail (jwp : FS → FS) (d0 : Option (List Export)) (fs : FS) (calls : Nat) :
    UpdateResult :=
  match load_data fs with
  | .error e => ⟨d0, some e, fs, calls⟩
  | .ok d =>
    if d.length < 1 then ⟨some d, none, fs, calls⟩
    else if staleCheck d then
      let fs2 := jwp fs
      match load_data fs2 with
      | .error e => ⟨some d, some e, fs2, calls + 1⟩
      | .ok d2 => ⟨some d2, none, fs2, calls + 1⟩
    else ⟨some d, none, fs, calls⟩

/-- Embeds the serialization-update step: a missing binary asset clears the
cached data and returns; a missing sidecar triggers one serializer
invocation, and if the sidecar is still missing afterwards the cached data
is cleared and the step returns; otherwise the load-and-repair tail runs. -/
def _update_serialization (jwp : FS → FS) (d0 : Option (List Export)) (fs : FS) :
    UpdateResult :=
  if fs.asset_exists = false then ⟨none, none, fs, 0⟩
  else if fs.sidecar = SidecarState.absent then
    let fs1 := jwp fs
    if fs1.sidecar = SidecarState.absent then ⟨none, none, fs1, 1⟩
    else updateTail jwp d0 fs1 1
  else updateTail jwp d0 fs 0

/-- The errors the data accessor can produce: the not-found error raised
before any cache work when the binary asset is missing, the
serialization-failure error raised when the update step leaves no data, or a
propagated load exception. -/
inductive DataError
  | notFound
  | serializationFailure
  | load (e : LoadError)
deriving DecidableEq, Repr

/-- The outcome of one call of the data accessor: its result, the memoized
cached-data attribute afterwards, the filesystem state afterwards, and the
number of serializer invocations it made. -/
structure DataResult where
  result : Except DataError (List Export)
  cached : Option (List Export)
  fs : FS
  jwp_calls : Nat
deriving Repr

/-- How the data accessor reads off its outcome from the update step: a
propagated load exception surfaces, and an empty cached-data attribute
afterwards raises the serialization-failure error. -/
def dataOutcome (u : UpdateResult) : DataResult :=
  match u.exc with
  | some e => ⟨.error (.load e), u.cached, u.fs, u.jwp_calls⟩
  | none =>
    match u.cached with
    | none => ⟨.error .serializationFailure, none, u.fs, u.jwp_calls⟩
    | some d => ⟨.ok d, some d, u.fs, u.jwp_calls⟩

/-- Embeds the data accessor: already-memoized data is returned outright;
otherwise a missing binary asset raises the not-found error before any cache
work, then the update step runs and its outcome is read off. -/
def data (jwp : FS → FS) (st : Option (List Export)) (fs : FS) : DataResult :=
  match st with
  | some d => ⟨.ok d, some d, fs, 0⟩
  | none =>
    if fs.asset_exists = false then ⟨.error .notFound, none, fs, 0⟩
    else dataOutcome (_update_serialization jwp none fs)

/-! ## Export queries over loaded data -/

/-- Embeds the per-class export filter: the records whose type discriminator
is among the requested classes, in file order. -/
def iter_exports_of_class (d : List Export) (cls : List String) : List Export :=
  d.filter (fun e => cls.contains e.export_type)

/-- The two errors of the single-export query: no matching record, or more
than one. -/
inductive SingleExportError
  | noExports
  | multipleExports
deriving DecidableEq, Repr

/-- Embeds the single-export query: draw from the filtered sequence once
(no element means the no-match error), then once more (a second element
means the ambiguity error, exhaustion returns the first element). -/
def get_single_export (d : List Export) (cls : List String) :
    Except SingleExportError Export :=
  match iter_exports_of_class d cls with
  | [] => .error .noExports
  | [first] => .ok first
  | _ :: _ :: _ => .error .multipleExports

/-! ## Helper lemmas -/

/-- The data accessor's outcome never carries the not-found error: that
error arises only from the guard before the update step. -/
lemma dataOutcome_result_ne_notFound (u : UpdateResult) :
    (dataOutcome u).result ≠ Except.error DataError.notFound := by
  obtain ⟨c, e, f, n⟩ := u
  cases e <;> cases c <;> simp [dataOutcome]

/-- When the data accessor's outcome succeeds, the memoized attribute holds
exactly the returned records. -/
lemma dataOutcome_ok_cached (u : UpdateResult) (d : List Export)
    (h : (dataOutcome u).result = Except.ok d) :
    (dataOutcome u).cached = some d := by
  obtain ⟨c, e, f, n⟩ := u
  cases e <;> cases c <;> simp_all [dataOutcome]

/-- A nonempty list does not have length below one. -/
lemma length_not_lt_one {α : Type} (d : List α) (h : d ≠ []) : ¬ d.length < 1 := by
  cases d with
  | nil => exact absurd rfl h
  | cons a t => simp

/-! ## The claims -/

/-- C9: equality of asset nodes ignores the File/Folder variant: any two
asset nodes whose canonical resolved paths coincide compare equal, whatever
their kinds, since the equality method tests only the resolved path. -/
theorem C9_eq_ignores_kind (a b : AssetNode) (h : a.full_path = b.full_path) :
    assetEq a b = true := by
  simp [assetEq, h]

theorem C9_witness :
    (AssetFile.ofString "/Game/Foo").kind = AssetKind.file ∧
    (AssetFolder.ofString "/Game/Foo").kind = AssetKind.folder ∧
    assetEq (AssetFile.ofString "/Game/Foo") (AssetFolder.ofString "/Game/Foo") = true :=
  ⟨by decide, by decide,
    C9_eq_ignores_kind (AssetFile.ofString "/Game/Foo") (AssetFolder.ofString "/Game/Foo")
      (by decide)⟩

/-- C4, at the code bug: two folder constructions from differently written
but identically normalizing inputs do compare equal, but hashing either one
raises TypeError — the class defines an equality method without a hash
method, so its hash slot is None and set insertion cannot de-duplicate. -/
theorem C4_eq_but_unhashable :
    assetEq (AssetFolder.ofString "/Game/Foo/") (AssetFolder.ofString "Game/Foo") = true ∧
    AssetFolder.ofString "/Game/Foo/" = AssetFolder.ofString "Game/Foo" ∧
    assetHash (AssetFolder.ofString "/Game/Foo/") = PyHashResult.typeError :=
  ⟨by decide, by decide, rfl⟩

/-- C10: the existence guard of the three traversal operations never fires,
for existent and nonexistent folders alike, because it tests the truthiness
of the bound method object rather than of its call result; in particular the
recursive search on a nonexistent folder yields the empty sequence instead
of the guard's not-found error. -/
theorem C10_guard_never_fires (dirExists : Bool) (children descendants : List Entry)
    (pfx : String) :
    child_files dirExists children ≠ Except.error TraverseError.guardNotFound ∧
    child_folders dirExists children ≠ Except.error TraverseError.guardNotFound ∧
    search_child_files dirExists descendants pfx ≠ Except.error TraverseError.guardNotFound ∧
    (dirExists = false → search_child_files dirExists descendants pfx = Except.ok []) := by
  refine ⟨?_, ?_, ?_, ?_⟩ <;>
    cases dirExists <;>
      simp [child_files, child_folders, search_child_files, pyTruthy]

theorem C10_witness :
    search_child_files false [⟨DATA_PATH ++ ["Game", "X.uasset"], EntryKind.file⟩] "x" =
      Except.ok [] :=
  (C10_guard_never_fires false [⟨DATA_PATH ++ ["Game", "X.uasset"], EntryKind.file⟩]
      [⟨DATA_PATH ++ ["Game", "X.uasset"], EntryKind.file⟩] "x").2.2.2 rfl

/-- C6: over loaded data, the single-export query returns the unique record
whose discriminator matches when exactly one does, fails with the no-match
error on zero matches and with the ambiguity error on two or more; and with
data loaded, the accessor neither changes the filesystem state nor invokes
the serializer. -/
theorem C6_single_export (d : List Export) (cls : List String) (jwp : FS → FS) (fs : FS) :
    (iter_exports_of_class d cls = [] →
      get_single_export d cls = Except.error SingleExportError.noExports) ∧
    (∀ e, iter_exports_of_class d cls = [e] → get_single_export d cls = Except.ok e) ∧
    (2 ≤ (iter_exports_of_class d cls).length →
      get_single_export d cls = Except.error SingleExportError.multipleExports) ∧
    data jwp (some d) fs = ⟨Except.ok d, some d, fs, 0⟩ := by
  refine ⟨?_, ?_, ?_, rfl⟩
  · intro h
    simp [get_single_export, h]
  · intro e h
    simp [get_single_export, h]
  · intro h
    rcases hm : iter_exports_of_class d cls with _ | ⟨x, _ | ⟨y, rest⟩⟩
    · rw [hm] at h; simp at h
    · rw [hm] at h; simp at h
    · simp [get_single_export, hm]

theorem C6_witness :
    get_single_export [⟨"Mission", some 21, 0⟩, ⟨"Other", some 21, 1⟩] ["Mission"] =
      Except.ok ⟨"Mission", some 21, 0⟩ :=
  (C6_single_export [⟨"Mission", some 21, 0⟩, ⟨"Other", some 21, 1⟩] ["Mission"]
      id ⟨true, SidecarState.absent⟩).2.1 ⟨"Mission", some 21, 0⟩ (by decide)

/-- C8: once a data call on a file instance has succeeded, the memo holds
the returned records, and every later call on that instance returns them
unchanged with zero serializer invocations and an untouched filesystem
state, whatever that state has become. -/
theorem C8_memoized (jwp : FS → FS) (st : Option (List Export)) (fs : FS) (d : List Export)
    (h : (data jwp st fs).result = Except.ok d) :
    (data jwp st fs).cached = some d ∧
    ∀ fs', data jwp (some d) fs' = ⟨Except.ok d, some d, fs', 0⟩ := by
  refine ⟨?_, fun fs' => rfl⟩
  cases st with
  | some d0 =>
    simp [data] at h ⊢
    exact h
  | none =>
    cases hA : fs.asset_exists with
    | false => rw [data, if_pos hA] at h; simp at h
    | true =>
      rw [data, if_neg (by simp [hA])] at h ⊢
      exact dataOutcome_ok_cached _ _ h

theorem C8_witness :
    data (fun s => s) (some [⟨"T", some 21, 0⟩]) ⟨false, SidecarState.malformed⟩ =
      ⟨Except.ok [⟨"T", some 21, 0⟩], some [⟨"T", some 21, 0⟩],
        ⟨false, SidecarState.malformed⟩, 0⟩ :=
  (C8_memoized (fun s => s) (some [⟨"T", some 21, 0⟩]) ⟨true, SidecarState.absent⟩
      [⟨"T", some 21, 0⟩] rfl).2 ⟨false, SidecarState.malformed⟩

/-- C1: for a file whose binary asset and sidecar both exist and whose
parsed sidecar is a nonempty sequence: a missing or below-required version
tag on the first record makes the data accessor invoke the serializer
exactly once more and reload once, accepting whatever the reload finds with
no further staleness check and no staleness error; a tag at or above the
constant makes it invoke the serializer zero times. -/
theorem C1_staleness_repair (jwp : FS → FS) (fs : FS) (d : List Export)
    (hA : fs.asset_exists = true) (hS : fs.sidecar = SidecarState.content d)
    (hNE : d ≠ []) :
    (staleCheck d = true →
      (data jwp none fs).jwp_calls = 1 ∧
      (data jwp none fs).result =
        (match (jwp fs).sidecar with
         | SidecarState.absent => Except.error (DataError.load LoadError.fileNotFound)
         | SidecarState.malformed => Except.error (DataError.load LoadError.parseError)
         | SidecarState.content d2 => Except.ok d2)) ∧
    (staleCheck d = false →
      data jwp none fs = ⟨Except.ok d, some d, fs, 0⟩) := by
  have hlen := length_not_lt_one d hNE
  constructor
  · intro hst
    cases hjs : (jwp fs).sidecar <;>
      simp [data, dataOutcome, _update_serialization, updateTail, load_data,
        hA, hS, hst, hlen, hjs]
  · intro hst
    simp [data, dataOutcome, _update_serialization, updateTail, load_data,
      hA, hS, hst, hlen]

theorem C1_witness :
    (data (fun _ => ⟨true, SidecarState.content [⟨"T", some 21, 1⟩]⟩) none
        ⟨true, SidecarState.content [⟨"T", none, 0⟩]⟩).jwp_calls = 1 ∧
    data (fun _ => ⟨true, SidecarState.content [⟨"T", some 21, 1⟩]⟩) none
        ⟨true, SidecarState.content [⟨"T", some 21, 5⟩]⟩ =
      ⟨Except.ok [⟨"T", some 21, 5⟩], some [⟨"T", some 21, 5⟩],
        ⟨true, SidecarState.content [⟨"T", some 21, 5⟩]⟩, 0⟩ :=
  ⟨((C1_staleness_repair (fun _ => ⟨true, SidecarState.content [⟨"T", some 21, 1⟩]⟩)
        ⟨true, SidecarState.content [⟨"T", none, 0⟩]⟩ [⟨"T", none, 0⟩]
        rfl rfl (by decide)).1 (by decide)).1,
   (C1_staleness_repair (fun _ => ⟨true, SidecarState.content [⟨"T", some 21, 1⟩]⟩)
        ⟨true, SidecarState.content [⟨"T", some 21, 5⟩]⟩ [⟨"T", some 21, 5⟩]
        rfl rfl (by decide)).2 (by decide)⟩

/-- C3 fails as stated: with the binary asset present and the sidecar
absent, an external serializer that produces a sidecar whose data is
nonempty but still stale draws a second invocation from the data accessor,
so at this concrete input the accessor does not invoke the serializer
exactly once. -/
theorem C3_counterexample :
    (⟨true, SidecarState.absent⟩ : FS).asset_exists = true ∧
    (⟨true, SidecarState.absent⟩ : FS).sidecar = SidecarState.absent ∧
    ¬ ((data (fun s => ⟨s.asset_exists, SidecarState.content [⟨"T", some 0, 0⟩]⟩) none
        ⟨true, SidecarState.absent⟩).jwp_calls = 1) := by decide

/-- C3 amended: with the binary asset present and the sidecar absent, the
data accessor invokes the serializer once; a sidecar still absent afterwards
fails with the serialization-failure error and is not retried (one
invocation total); a sidecar present afterwards is loaded like any present
sidecar — unparsable content propagates the parse error, parsed content that
is empty or fresh is returned (one invocation total), and parsed content
that is nonempty but still stale draws exactly one further invocation and
reload (two total), whose outcome is accepted. -/
theorem C3_missing_sidecar (jwp : FS → FS) (fs : FS)
    (hA : fs.asset_exists = true) (hS : fs.sidecar = SidecarState.absent) :
    ((jwp fs).sidecar = SidecarState.absent →
      data jwp none fs = ⟨Except.error DataError.serializationFailure, none, jwp fs, 1⟩) ∧
    ((jwp fs).sidecar = SidecarState.malformed →
      data jwp none fs =
        ⟨Except.error (DataError.load LoadError.parseError), none, jwp fs, 1⟩) ∧
    (∀ d2, (jwp fs).sidecar = SidecarState.content d2 →
      ((d2 = [] ∨ staleCheck d2 = false) →
        data jwp none fs = ⟨Except.ok d2, some d2, jwp fs, 1⟩) ∧
      (d2 ≠ [] → staleCheck d2 = true →
        (data jwp none fs).jwp_calls = 2 ∧
        (data jwp none fs).result =
          (match (jwp (jwp fs)).sidecar with
           | SidecarState.absent => Except.error (DataError.load LoadError.fileNotFound)
           | SidecarState.malformed => Except.error (DataError.load LoadError.parseError)
           | SidecarState.content d3 => Except.ok d3))) := by
  refine ⟨?_, ?_, ?_⟩
  · intro hjs
    simp [data, dataOutcome, _update_serialization, hA, hS, hjs]
  · intro hjs
    simp [data, dataOutcome, _update_serialization, updateTail, load_data, hA, hS, hjs]
  · intro d2 hjs
    constructor
    · intro hd2
      rcases hd2 with hd2 | hd2
      · subst hd2
        simp [data, dataOutcome, _update_serialization, updateTail, load_data, hA, hS, hjs]
      · by_cases hne : d2 = []
        · subst hne
          simp [data, dataOutcome, _update_serialization, updateTail, load_data, hA, hS, hjs]
        · have hlen := length_not_lt_one d2 hne
          simp [data, dataOutcome, _update_serialization, updateTail, load_data,
            hA, hS, hjs, hd2, hlen]
    · intro hne hst
      have hlen := length_not_lt_one d2 hne
      cases hjs2 : (jwp (jwp fs)).sidecar <;>
        simp [data, dataOutcome, _update_serialization, updateTail, load_data,
          hA, hS, hjs, hst, hlen, hjs2]

theorem C3_witness :
    data (fun _ => (⟨true, SidecarState.absent⟩ : FS)) none ⟨true, SidecarState.absent⟩ =
      ⟨Except.error DataError.serializationFailure, none, ⟨true, SidecarState.absent⟩, 1⟩ :=
  (C3_missing_sidecar (fun _ => ⟨true, SidecarState.absent⟩) ⟨true, SidecarState.absent⟩
      rfl rfl).1 rfl

/-- C5: file existence is presence of the binary asset, never consulting the
sidecar state; and a fresh data call produces the not-found error exactly
when the binary asset is absent, in which case no serializer call is made
and the filesystem state is untouched. -/
theorem C5_exists_and_not_found (a : Bool) (s s' : SidecarState) (jwp : FS → FS) (fs : FS) :
    AssetFile.file_exists ⟨a, s⟩ = a ∧
    AssetFile.file_exists ⟨a, s⟩ = AssetFile.file_exists ⟨a, s'⟩ ∧
    ((data jwp none fs).result = Except.error DataError.notFound ↔
      fs.asset_exists = false) ∧
    (fs.asset_exists = false →
      data jwp none fs = ⟨Except.error DataError.notFound, none, fs, 0⟩) := by
  refine ⟨rfl, rfl, ?_, ?_⟩
  · cases hA : fs.asset_exists with
    | false => simp [data, hA]
    | true => simp [data, hA, dataOutcome_result_ne_notFound]
  · intro hA
    simp [data, hA]

theorem C5_witness :
    data (fun s => s) none ⟨false, SidecarState.absent⟩ =
      ⟨Except.error DataError.notFound, none, ⟨false, SidecarState.absent⟩, 0⟩ :=
  (C5_exists_and_not_found true SidecarState.absent SidecarState.malformed (fun s => s)
      ⟨false, SidecarState.absent⟩).2.2.2 rfl

/-- C2 fails as stated: the input below resolves outside the root and its
resolved path collapses to the root, but the file-variant node's display
string is empty, not the root's canonical single slash. -/
theorem C2_counterexample :
    DATA_PATH.isPrefixOf
      (resolveSegs DATA_PATH (splitPath (stripLeadingSlash "../../../etc"))) = false ∧
    (AssetFile.ofString "../../../etc").full_path = DATA_PATH ∧
    (AssetFile.ofString "../../../etc").path ≠ "/" := by decide

/-- C2 amended: every input resolving outside the root collapses, without
raising, to a node whose resolved path is the root; the folder variant's
display string is the root's canonical single slash, while the file
variant's display string is the empty string (the trailing-slash drop
applied to the root's display string). -/
theorem C2_sandbox_collapse (input : String)
    (h : DATA_PATH.isPrefixOf
      (resolveSegs DATA_PATH (splitPath (stripLeadingSlash input))) = false) :
    AssetFolder.ofString input = ⟨AssetKind.folder, DATA_PATH, "/"⟩ ∧
    AssetFile.ofString input = ⟨AssetKind.file, DATA_PATH, ""⟩ := by
  have habs : ∀ k, abstractInit k input = ⟨k, DATA_PATH, "/"⟩ := by
    intro k
    simp [abstractInit, h, List.drop_length]
  refine ⟨habs AssetKind.folder, ?_⟩
  show fileInitTail (abstractInit AssetKind.file input) = _
  rw [habs AssetKind.file]
  decide

theorem C2_witness :
    AssetFolder.ofString "/../../../Windows" = ⟨AssetKind.folder, DATA_PATH, "/"⟩ ∧
    AssetFile.ofString "/../../../Windows" = ⟨AssetKind.file, DATA_PATH, ""⟩ :=
  C2_sandbox_collapse "/../../../Windows" (by decide)

/-- C7 fails as stated on the kind preference: a glob whose underlying
enumeration lists the file entry before the same-stem directory entry yields
the file node for that stem, not the folder node. -/
theorem C7_counterexample :
    (glob [⟨DATA_PATH ++ ["Foo.uasset"], EntryKind.file⟩,
           ⟨DATA_PATH ++ ["Foo"], EntryKind.dir⟩]).map AssetNode.kind = [AssetKind.file] ∧
    AssetKind.file ≠ AssetKind.folder := by decide

/-- Every stem key yielded by the de-duplicating glob loop is absent from
the known set the loop started with. -/
lemma globPairs_keys_not_known (entries : List Entry) :
    ∀ known : List (List String),
      ∀ t ∈ (globPairs known entries).map Prod.fst, t ∉ known := by
  induction entries with
  | nil =>
    intro known t ht
    simp [globPairs] at ht
  | cons e rest ih =>
    intro known t ht
    simp only [globPairs] at ht
    by_cases hk : with_suffix e.segs "" ∈ known
    · rw [if_pos hk] at ht
      exact ih known t ht
    · rw [if_neg hk] at ht
      cases hek : e.kind <;> rw [hek] at ht
      all_goals
        first
        | (simp only [List.map_cons, List.mem_cons] at ht
           rcases ht with ht | ht
           · subst ht; exact hk
           · intro hmem
             exact ih (with_suffix e.segs "" :: known) t ht (List.mem_cons_of_mem _ hmem))
        | (intro hmem
           exact ih (with_suffix e.segs "" :: known) t ht (List.mem_cons_of_mem _ hmem))

/-- The stem keys yielded by the de-duplicating glob loop are pairwise
distinct. -/
lemma globPairs_keys_nodup (entries : List Entry) :
    ∀ known : List (List String), ((globPairs known entries).map Prod.fst).Nodup := by
  induction entries with
  | nil =>
    intro known
    simp [globPairs]
  | cons e rest ih =>
    intro known
    simp only [globPairs]
    by_cases hk : with_suffix e.segs "" ∈ known
    · rw [if_pos hk]
      exact ih known
    · rw [if_neg hk]
      cases e.kind with
      | dir =>
        refine List.nodup_cons.mpr ⟨?_, ih _⟩
        intro hmem
        exact globPairs_keys_not_known rest (with_suffix e.segs "" :: known) _ hmem
          (List.mem_cons_self _ _)
      | file =>
        refine List.nodup_cons.mpr ⟨?_, ih _⟩
        intro hmem
        exact globPairs_keys_not_known rest (with_suffix e.segs "" :: known) _ hmem
          (List.mem_cons_self _ _)
      | other => exact ih _

/-- C7 amended: glob's output is the node column of the de-duplicating
loop's key/node pairs, whose stem keys are pairwise distinct — at most one
node per distinct stem, the stem's first enumerated entry winning with no
preference of kind. -/
theorem C7_dedup_by_stem (entries : List Entry) :
    glob entries = (globPairs [] entries).map Prod.snd ∧
    ((globPairs [] entries).map Prod.fst).Nodup :=
  ⟨rfl, globPairs_keys_nodup entries []⟩

end BL3
